import Mathlib

/-!
Shallow embedding of the frame/interaction core of the `egui` excerpt
(`src/egui/src/context.rs` and `src/egui/src/demos/toggle_switch.rs`).

Scalars are modelled as exact rationals (`ℚ`) in place of `f32`; machine
floats only enter through comparisons and affine arithmetic here, which the
rational model reproduces exactly on exactly-representable inputs.
-/

namespace Egui

/-- Modelled from the spec: geometric primitives (points, vectors,
rectangles) are "assumed as a library dependency" by the spec and their
source is not part of the excerpt; they are given their standard egui
meanings. A 2D vector. -/
structure Vec2 where
  x : ℚ
  y : ℚ
deriving DecidableEq

/-- Modelled from the spec: a 2D position (screen point). -/
structure Pos2 where
  x : ℚ
  y : ℚ
deriving DecidableEq

def Vec2.smul (k : ℚ) (v : Vec2) : Vec2 := ⟨k * v.x, k * v.y⟩

def Pos2.addVec (p : Pos2) (v : Vec2) : Pos2 := ⟨p.x + v.x, p.y + v.y⟩

def Pos2.subVec (p : Pos2) (v : Vec2) : Pos2 := ⟨p.x - v.x, p.y - v.y⟩

def Pos2.sub (a b : Pos2) : Vec2 := ⟨a.x - b.x, a.y - b.y⟩

/-- Modelled from the spec: squared distance between two points.  The source
compares `clash_pos.distance(pos) < 4.0`; with nonnegative radius that is
equivalent to comparing the squared distance with the squared radius, which
avoids an irrational square root in the model. -/
def Pos2.distSq (a b : Pos2) : ℚ := (a.x - b.x) ^ 2 + (a.y - b.y) ^ 2

/-- Modelled from the spec: an axis-aligned rectangle given by its min and
max corners. -/
structure Rect where
  min : Pos2
  max : Pos2
deriving DecidableEq

def Rect.width (r : Rect) : ℚ := r.max.x - r.min.x

def Rect.height (r : Rect) : ℚ := r.max.y - r.min.y

def Rect.left (r : Rect) : ℚ := r.min.x

def Rect.right (r : Rect) : ℚ := r.max.x

def Rect.top (r : Rect) : ℚ := r.min.y

def Rect.bottom (r : Rect) : ℚ := r.max.y

def Rect.size (r : Rect) : Vec2 := r.max.sub r.min

def Rect.center (r : Rect) : Pos2 := ⟨(r.min.x + r.max.x) / 2, (r.min.y + r.max.y) / 2⟩

def Rect.from_min_size (p : Pos2) (s : Vec2) : Rect := ⟨p, p.addVec s⟩

/-- Modelled from the spec: `Rect::contains` — closed containment test. -/
def Rect.contains (r : Rect) (p : Pos2) : Bool :=
  decide (r.min.x ≤ p.x) && decide (p.x ≤ r.max.x) &&
  decide (r.min.y ≤ p.y) && decide (p.y ≤ r.max.y)

/-- Modelled from the spec: `Rect::intersect` — componentwise max of mins
and min of maxes. -/
def Rect.intersect (a b : Rect) : Rect :=
  ⟨⟨Max.max a.min.x b.min.x, Max.max a.min.y b.min.y⟩,
   ⟨Min.min a.max.x b.max.x, Min.min a.max.y b.max.y⟩⟩

/-- Modelled from the spec: `Rect::union` — componentwise min of mins and
max of maxes. -/
def Rect.union (a b : Rect) : Rect :=
  ⟨⟨Min.min a.min.x b.min.x, Min.min a.min.y b.min.y⟩,
   ⟨Max.max a.max.x b.max.x, Max.max a.max.y b.max.y⟩⟩

/-- Modelled from the spec: `Rect::expand2` — grow the rectangle by `v` on
every side. -/
def Rect.expand2 (r : Rect) (v : Vec2) : Rect := ⟨r.min.subVec v, r.max.addVec v⟩

/-- Modelled from the spec: `Rect::nothing()` — the empty "nothing" sentinel
rectangle with `min > max`; the source uses `±INFINITY` corners, which the
rational model replaces by a large finite magnitude.  Only its role as a
distinguished sentinel value (compared for equality by
`allocate_central_panel`) matters for the claims. -/
def Rect.nothing : Rect := ⟨⟨(10:ℚ)^9, (10:ℚ)^9⟩, ⟨-(10:ℚ)^9, -(10:ℚ)^9⟩⟩

/-- Clamp from below: `f32::at_least` is `max`. -/
def at_least (x lo : ℚ) : ℚ := max x lo

/-- Clamp from above: `f32::at_most` is `min`. -/
def at_most (x hi : ℚ) : ℚ := min x hi

/-- `Context::round_to_pixel`: `(point * pixels_per_point).round() / pixels_per_point`. -/
def round_to_pixel (pixels_per_point : ℚ) (point : ℚ) : ℚ :=
  ((round (point * pixels_per_point) : ℤ) : ℚ) / pixels_per_point

/-- `Context::round_pos_to_pixels`. -/
def round_pos_to_pixels (pixels_per_point : ℚ) (pos : Pos2) : Pos2 :=
  ⟨round_to_pixel pixels_per_point pos.x, round_to_pixel pixels_per_point pos.y⟩

/-! ## Identifiers, layers, input -/

/-- Widget identifier (`Id` is an opaque hash value in the source). -/
abbrev Id := ℕ

/-- Layer identifier (`LayerId` carries an order and an id in the source;
only equality of layers matters for the embedded functions). -/
abbrev LayerId := ℕ

/-- Mouse part of the per-frame input snapshot (`input.mouse`). -/
structure Mouse where
  pos : Option Pos2
  pressed : Bool
  released : Bool
  down : Bool
  could_be_click : Bool
  double_click : Bool

/-- `Sense`: which interactions a region opts into. -/
structure Sense where
  click : Bool
  drag : Bool
deriving DecidableEq

/-- `Sense::nothing()`. -/
def Sense.nothing : Sense := ⟨false, false⟩

/-- `Sense::click()` (named `clickOnly` because `Sense.click` is the field
projection in Lean). -/
def Sense.clickOnly : Sense := ⟨true, false⟩

/-- `Sense::drag()`. -/
def Sense.dragOnly : Sense := ⟨false, true⟩

/-- The `Interaction` part of persistent memory: the click/drag ownership
slots, the window-move placeholder flag, the per-frame interest flags and
the keyboard focus slot. -/
structure Interaction where
  click_id : Option Id
  drag_id : Option Id
  drag_is_window : Bool
  click_interest : Bool
  drag_interest : Bool
  kb_focus_id : Option Id

/-- Persistent memory as seen by `Context::interact`: the interaction slots
plus the transient window-interaction state cleared by a preempting drag
claim (modelled as an optional opaque token). -/
structure Memory where
  interaction : Interaction
  window_interaction : Option Unit

/-- Modelled from the spec: `Memory::has_kb_focus` (the memory module is not
part of the excerpt) — whether `id` is the identifier "currently focused for
keyboard". -/
def Memory.has_kb_focus (m : Memory) (id : Id) : Bool :=
  m.interaction.kb_focus_id = some id

/-- `active` as computed by `Context::interact`: this identifier currently
owns the click or the drag slot. -/
def Interaction.is_active (i : Interaction) (id : Id) : Bool :=
  i.click_id = some id || i.drag_id = some id

/-- The pieces of `Context` that `Context::interact` reads: the mouse
snapshot, the style's item spacing, and topmost-layer resolution.
`layer_id_at` is kept as an abstract function because the area/layer tables
live in the memory module, outside the excerpt; every theorem below holds
for an arbitrary resolution function. -/
structure Ctx where
  mouse : Mouse
  item_spacing : Vec2
  layer_id_at : Pos2 → Option LayerId

/-- `Context::contains_mouse`: the rectangle clipped by `clip_rect` contains
the mouse position and the topmost layer there is `layer_id`. -/
def Ctx.contains_mouse (c : Ctx) (layer_id : LayerId) (clip_rect rect : Rect) : Bool :=
  let rect := rect.intersect clip_rect
  match c.mouse.pos with
  | some mouse_pos => rect.contains mouse_pos && decide (c.layer_id_at mouse_pos = some layer_id)
  | none => false

/-- The `hovered` computation at the top of `Context::interact`: the
interaction rectangle is `rect` expanded by half the item spacing. -/
def Ctx.interact_hovered (c : Ctx) (layer_id : LayerId) (clip_rect rect : Rect) : Bool :=
  c.contains_mouse layer_id clip_rect (rect.expand2 (Vec2.smul (1/2) c.item_spacing))

/-- `Response` returned by `Context::interact` (the source also stores a
clone of the shared context handle in the response; that handle carries no
per-response data and is omitted). -/
structure Response where
  sense : Sense
  rect : Rect
  hovered : Bool
  clicked : Bool
  double_clicked : Bool
  active : Bool
  has_kb_focus : Bool
deriving DecidableEq

/-- `Context::interact` (context.rs lines 439–554), as a function from the
read context and the incoming memory to the response and the outgoing
memory.  The source's early return `if interaction_id.is_none() || sense ==
Sense::nothing()` is rendered as a match on the option followed by the sense
test, which short-circuits identically. -/
def Ctx.interact (c : Ctx) (layer_id : LayerId) (clip_rect rect : Rect)
    (interaction_id : Option Id) (sense : Sense) (m : Memory) : Response × Memory :=
  let hovered := c.interact_hovered layer_id clip_rect rect
  let has_kb_focus := match interaction_id with
    | some id => m.has_kb_focus id
    | none => false
  match interaction_id with
  | none =>
      ({ sense, rect, hovered, clicked := false, double_clicked := false,
         active := false, has_kb_focus }, m)
  | some interaction_id =>
    if sense = Sense.nothing then
      ({ sense, rect, hovered, clicked := false, double_clicked := false,
         active := false, has_kb_focus }, m)
    else
      let m : Memory := { m with interaction := { m.interaction with
        click_interest := m.interaction.click_interest || (hovered && sense.click),
        drag_interest := m.interaction.drag_interest || (hovered && sense.drag) } }
      let active := m.interaction.is_active interaction_id
      if c.mouse.pressed then
        if hovered then
          let claim_click := sense.click && m.interaction.click_id.isNone
          let m : Memory := if claim_click then
              { m with interaction := { m.interaction with click_id := some interaction_id } }
            else m
          let claim_drag := sense.drag &&
            (m.interaction.drag_id.isNone || m.interaction.drag_is_window)
          let m : Memory := if claim_drag then
              { m with
                interaction := { m.interaction with
                  drag_id := some interaction_id, drag_is_window := false },
                window_interaction := none }
            else m
          ({ sense, rect, hovered := true, clicked := false, double_clicked := false,
             active := claim_click || claim_drag, has_kb_focus }, m)
        else
          ({ sense, rect, hovered, clicked := false, double_clicked := false,
             active := false, has_kb_focus }, m)
      else if c.mouse.released then
        let clicked := hovered && active && c.mouse.could_be_click
        ({ sense, rect, hovered, clicked,
           double_clicked := clicked && c.mouse.double_click,
           active, has_kb_focus }, m)
      else if c.mouse.down then
        ({ sense, rect, hovered := hovered && active, clicked := false,
           double_clicked := false, active, has_kb_focus }, m)
      else
        ({ sense, rect, hovered, clicked := false, double_clicked := false,
           active, has_kb_focus }, m)

/-! ## Frame controller: repaint counter, `end_frame`, `animate_bool` -/

/-- The per-frame `Output` record.  The source's `Output` also carries
side-effect requests (open URL, clipboard, cursor icon) that the embedded
functions never touch; only the `needs_repaint` flag is modelled. -/
structure Output where
  needs_repaint : Bool
deriving DecidableEq

/-- `Context::request_repaint`: store the constant 2 into the repaint
counter, regardless of its current value. -/
def request_repaint (_repaint_requests : ℕ) : ℕ := 2

/-- The repaint/output part of `Context::end_frame` (context.rs lines
246–257): if the input wants a repaint, call `request_repaint`; then, if the
counter is positive, decrement it and set `needs_repaint` on the accumulated
output.  The memory finalization and paint-command draining of the source do
not touch the counter or the flag. -/
def end_frame (wants_repaint : Bool) (output : Output) (repaint_requests : ℕ) :
    Output × ℕ :=
  let repaint_requests :=
    if wants_repaint then request_repaint repaint_requests else repaint_requests
  if 0 < repaint_requests then
    ({ output with needs_repaint := true }, repaint_requests - 1)
  else
    (output, repaint_requests)

/-- `Context::animate_bool` (context.rs lines 566–577): the wrapper around
the animation manager.  `animated_value` stands for the value returned by
the manager (the manager itself lives outside the excerpt; the wrapper's
repaint decision depends only on the returned value).  Returns the value
together with the updated repaint counter. -/
def animate_bool (animated_value : ℚ) (repaint_requests : ℕ) : ℚ × ℕ :=
  let animation_in_progress := 0 < animated_value ∧ animated_value < 1
  if animation_in_progress then
    (animated_value, request_repaint repaint_requests)
  else
    (animated_value, repaint_requests)

/-! ## Panels, window constraint, unique ids, `begin_frame` -/

/-- `Context::register_panel`: grow the used-by-panels union rectangle. -/
def register_panel (used_by_panels : Option Rect) (panel_rect : Rect) : Option Rect :=
  some ((used_by_panels.getD Rect.nothing).union panel_rect)

/-- `Context::allocate_central_panel` with debug-build semantics: the
`debug_assert!` fires (the call panics, modelled as `Except.error` carrying
the assertion message) exactly when the available rectangle is already the
`Rect::nothing()` sentinel; otherwise the available rectangle becomes the
sentinel and the panel footprint is registered.  (In release builds the
assertion is compiled out and the second call proceeds silently.) -/
def allocate_central_panel (available_rect : Option Rect) (used_by_panels : Option Rect)
    (panel_rect : Rect) : Except String (Option Rect × Option Rect) :=
  if available_rect = some Rect.nothing then
    Except.error "You already created a  `CentralPanel` this frame!"
  else
    Except.ok (some Rect.nothing, register_panel used_by_panels panel_rect)

/-- One axis of the position clamp inside `Context::constrain_window_rect`:
`margin = at_least (window_extent - screen_extent) 0`, then the window's min
coordinate is clamped to `[screen_min - margin, screen_max + margin -
window_extent]`.  The source performs this computation once for x (with
`width`/`left`/`right`) and once for y (with `height`/`top`/`bottom`). -/
def clamp_axis (smin smax wmin wmax : ℚ) : ℚ :=
  let margin := at_least ((wmax - wmin) - (smax - smin)) 0
  at_most (at_least wmin (smin - margin)) (smax + margin - (wmax - wmin))

/-- The pre-snapping position clamp inside `Context::constrain_window_rect`
(context.rs lines 186–195), per axis. -/
def constrain_window_pos (screen window : Rect) : Pos2 :=
  ⟨clamp_axis screen.left screen.right window.min.x window.max.x,
   clamp_axis screen.top screen.bottom window.min.y window.max.y⟩

/-- `Context::constrain_window_rect`: clamp the window position to the
available rectangle (allowing symmetric overflow when the window is too
large), snap to the pixel grid, and rebuild the rectangle from the snapped
position and the original size. -/
def constrain_window_rect (pixels_per_point : ℚ) (screen window : Rect) : Rect :=
  Rect.from_min_size
    (round_pos_to_pixels pixels_per_point (constrain_window_pos screen window))
    window.size

/-- Association list backing the `used_ids` map; lookup takes the newest
binding, matching the map's overwrite-on-insert semantics. -/
def idLookup : List (Id × Pos2) → Id → Option Pos2
  | [], _ => none
  | (k, v) :: t, i => if k = i then some v else idLookup t i

/-- The kind of collision diagnostic painted by `Context::register_unique_id`
(the source builds the message with `format!`; only the kind and position of
each painted error matter here). -/
inductive IdErrKind where
  | nonUniqueUse
  | firstUse
  | secondUse
deriving DecidableEq

/-- `Context::register_unique_id` (context.rs lines 345–375): insert the id
into the used-id map; if it was already present, paint one error at the new
position when the two positions are closer than 4 units, and otherwise one
error at each of the two positions.  Returns the updated map and the list of
painted diagnostics.  (`distance < 4.0` is rendered as `distSq < 16`.) -/
def register_unique_id (used_ids : List (Id × Pos2)) (id : Id) (pos : Pos2) :
    List (Id × Pos2) × List (Pos2 × IdErrKind) :=
  match idLookup used_ids id with
  | some clash_pos =>
      ((id, pos) :: used_ids,
        if clash_pos.distSq pos < 16 then
          [(pos, IdErrKind.nonUniqueUse)]
        else
          [(clash_pos, IdErrKind.firstUse), (pos, IdErrKind.secondUse)])
  | none => ((id, pos) :: used_ids, [])

/-- The bookkeeping resets of `Context::begin_frame_mut` (context.rs lines
215–219): the used-id set is cleared, the available rectangle becomes the
screen rectangle, and the used-by-panels rectangle becomes the empty
sentinel.  Returns (used_ids, available_rect, used_by_panels). -/
def begin_frame_mut (_used_ids : List (Id × Pos2)) (screen_rect : Rect) :
    List (Id × Pos2) × Option Rect × Option Rect :=
  ([], some screen_rect, some Rect.nothing)

/-! ## The toggle-switch demo widget (`demos/toggle_switch.rs`) -/

/-- Premultiplied linear color, as in `Rgba::new`. -/
structure Rgba where
  r : ℚ
  g : ℚ
  b : ℚ
  a : ℚ
deriving DecidableEq

/-- `lerp(a..=b, t)` on scalars: `(1 - t) * a + t * b`. -/
def qlerp (a b t : ℚ) : ℚ := (1 - t) * a + t * b

/-- `lerp` on colors, componentwise. -/
def Rgba.lerp (a b : Rgba) (t : ℚ) : Rgba :=
  ⟨qlerp a.r b.r t, qlerp a.g b.g t, qlerp a.b b.b t, qlerp a.a b.a t⟩

/-- A stroke (line width and color). -/
structure Stroke where
  width : ℚ
  color : Rgba
deriving DecidableEq

/-- The widget visuals chosen by `ui.style().interact(&response)`: the three
pieces the toggle widget reads. -/
structure Visuals where
  bg_stroke : Stroke
  fg_fill : Rgba
  fg_stroke : Stroke
deriving DecidableEq

/-- The two paint commands the toggle widget emits: `painter.rect(rect,
corner_radius, fill, stroke)` and `painter.circle(center, radius, fill,
stroke)`. -/
inductive PaintCmd where
  | rect (rect : Rect) (corner_radius : ℚ) (fill : Rgba) (stroke : Stroke)
  | circle (center : Pos2) (radius : ℚ) (fill : Rgba) (stroke : Stroke)
deriving DecidableEq

/-- The `Ui` operations the toggle widget calls, over an abstract `Ui` state
`σ` threaded explicitly.  Their implementations live outside the excerpt
(`ui.rs`, `style.rs`, `painter.rs`); the equivalence of the two toggle
functions holds for every implementation, so they are kept abstract. -/
structure UiOps (σ : Type) where
  interact_size : σ → Vec2
  allocate_space : Vec2 → σ → Rect × σ
  make_position_id : σ → Id × σ
  interact : Rect → Id → Sense → σ → Response × σ
  animate_bool : Id → Bool → σ → ℚ × σ
  style_interact : Response → σ → Visuals
  paint : PaintCmd → σ → σ

/-- `toggle` (toggle_switch.rs lines 13–64), with the `&mut bool` flag
threaded as a value: on a click the flag is flipped with
`if response.clicked { *on = !*on }`. -/
def toggle {σ : Type} (ops : UiOps σ) (s : σ) (on_flag : Bool) : Response × Bool × σ :=
  let desired_size := ops.interact_size s
  let p1 := ops.allocate_space desired_size s
  let rect := p1.1
  let p2 := ops.make_position_id p1.2
  let id := p2.1
  let p3 := ops.interact rect id Sense.clickOnly p2.2
  let response := p3.1
  let on_flag := if response.clicked then !on_flag else on_flag
  let p4 := ops.animate_bool id on_flag p3.2
  let how_on := p4.1
  let visuals := ops.style_interact response p4.2
  let off_bg_fill : Rgba := ⟨0, 0, 0, 0⟩
  let on_bg_fill : Rgba := ⟨0, 1/2, 1/4, 1⟩
  let bg_fill := off_bg_fill.lerp on_bg_fill how_on
  let radius := (1/2) * rect.height
  let s := ops.paint (PaintCmd.rect rect radius bg_fill visuals.bg_stroke) p4.2
  let circle_x := qlerp (rect.left + radius) (rect.right - radius) how_on
  let center : Pos2 := ⟨circle_x, rect.center.y⟩
  let s := ops.paint (PaintCmd.circle center ((3/4) * radius) visuals.fg_fill visuals.fg_stroke) s
  (response, on_flag, s)

/-- `toggle_compact` (toggle_switch.rs lines 68–89): identical to `toggle`
except the flag update is `*on ^= response.clicked`. -/
def toggle_compact {σ : Type} (ops : UiOps σ) (s : σ) (on_flag : Bool) : Response × Bool × σ :=
  let desired_size := ops.interact_size s
  let p1 := ops.allocate_space desired_size s
  let rect := p1.1
  let p2 := ops.make_position_id p1.2
  let id := p2.1
  let p3 := ops.interact rect id Sense.clickOnly p2.2
  let response := p3.1
  let on_flag := on_flag.xor response.clicked
  let p4 := ops.animate_bool id on_flag p3.2
  let how_on := p4.1
  let visuals := ops.style_interact response p4.2
  let off_bg_fill : Rgba := ⟨0, 0, 0, 0⟩
  let on_bg_fill : Rgba := ⟨0, 1/2, 1/4, 1⟩
  let bg_fill := off_bg_fill.lerp on_bg_fill how_on
  let radius := (1/2) * rect.height
  let s := ops.paint (PaintCmd.rect rect radius bg_fill visuals.bg_stroke) p4.2
  let circle_x := qlerp (rect.left + radius) (rect.right - radius) how_on
  let center : Pos2 := ⟨circle_x, rect.center.y⟩
  let s := ops.paint (PaintCmd.circle center ((3/4) * radius) visuals.fg_fill visuals.fg_stroke) s
  (response, on_flag, s)

/-! ## Concrete fixtures for the witness theorems -/

/-- A 10×10 widget rectangle at the origin. -/
def sampleRect : Rect := ⟨⟨0, 0⟩, ⟨10, 10⟩⟩

/-- A clip rectangle covering `sampleRect`. -/
def sampleClip : Rect := ⟨⟨0, 0⟩, ⟨10, 10⟩⟩

/-- A press transition with the pointer at (5, 5). -/
def sampleMousePress : Mouse :=
  { pos := some ⟨5, 5⟩, pressed := true, released := false, down := true,
    could_be_click := true, double_click := false }

/-- A release transition with the pointer at (5, 5) that could still be a
click. -/
def sampleMouseRelease : Mouse :=
  { pos := some ⟨5, 5⟩, pressed := false, released := true, down := false,
    could_be_click := true, double_click := false }

/-- A held-down frame (no transition) with the pointer at (5, 5). -/
def sampleMouseDown : Mouse :=
  { pos := some ⟨5, 5⟩, pressed := false, released := false, down := true,
    could_be_click := false, double_click := false }

/-- A context whose topmost layer everywhere is layer 0 and whose style has
no item spacing. -/
def sampleCtx (m : Mouse) : Ctx :=
  { mouse := m, item_spacing := ⟨0, 0⟩, layer_id_at := fun _ => some 0 }

/-- Interaction memory with free ownership slots. -/
def sampleInteractionFree : Interaction :=
  { click_id := none, drag_id := none, drag_is_window := false,
    click_interest := false, drag_interest := false, kb_focus_id := none }

/-- Memory with free slots and a pending window interaction. -/
def sampleMemFree : Memory :=
  { interaction := sampleInteractionFree, window_interaction := some () }

/-- Memory in which identifier 3 owns both slots. -/
def sampleMemOwned : Memory :=
  { interaction := { sampleInteractionFree with click_id := some 3, drag_id := some 3 },
    window_interaction := none }

/-- Memory in which identifier 7 owns the click slot. -/
def sampleMemActive7 : Memory :=
  { interaction := { sampleInteractionFree with click_id := some 7 },
    window_interaction := none }

/-! ## Theorems -/

/-- C3 counterexample: starting `end_frame` with a clean accumulated output,
no input repaint request, and a repaint counter of 1, the source sets
`needs_repaint = true` even though the counter after the decrement is 0 —
refuting "needs_repaint iff the counter is still positive after the
decrement". -/
theorem end_frame_counter_one_cex :
    (end_frame false ⟨false⟩ 1).1.needs_repaint = true ∧ (end_frame false ⟨false⟩ 1).2 = 0 := by
  decide

/-- C3 (amended): `end_frame` first applies the input's wants-repaint
request; it then flags `needs_repaint` if and only if the repaint counter is
positive *before* the decrement, and decrements the counter exactly when it
is positive (a zero counter stays zero). -/
theorem end_frame_repaint_spec (wants_repaint : Bool) (output : Output)
    (repaint_requests : ℕ) (h : output.needs_repaint = false) :
    (end_frame wants_repaint output repaint_requests).1.needs_repaint
      = decide (0 < if wants_repaint then 2 else repaint_requests)
    ∧ (end_frame wants_repaint output repaint_requests).2
      = (if wants_repaint then 2 else repaint_requests) - 1 := by
  unfold end_frame request_repaint
  cases wants_repaint with
  | true => simp
  | false =>
    by_cases h0 : 0 < repaint_requests
    · simp [h0]
    · have hz : repaint_requests = 0 := Nat.eq_zero_of_not_pos h0
      subst hz
      simp [h]

/-- Witness for `end_frame_repaint_spec` at counter 2. -/
theorem end_frame_repaint_spec_witness :
    (end_frame false ⟨false⟩ 2).1.needs_repaint = decide (0 < if false then 2 else 2)
    ∧ (end_frame false ⟨false⟩ 2).2 = (if false then 2 else 2) - 1 :=
  end_frame_repaint_spec false ⟨false⟩ 2 rfl

/-- C4: `request_repaint` stores the constant 2 (which is at least 2) into
the repaint counter regardless of its current value; repeated calls within a
frame do not compound beyond the constant; and after a request during frame
N, the `end_frame` of frame N, then the `end_frame` of frame N + 1, still
reports `needs_repaint = true` for frame N + 1. -/
theorem request_repaint_spec :
    (∀ c : ℕ, request_repaint c = 2 ∧ 2 ≤ request_repaint c)
    ∧ (∀ (l : List Unit) (c : ℕ), l ≠ [] →
        l.foldl (fun acc _ => request_repaint acc) c = 2)
    ∧ (∀ (wr1 wr2 : Bool) (out1 out2 : Output) (c : ℕ),
        (end_frame wr2 out2 (end_frame wr1 out1 (request_repaint c)).2).1.needs_repaint
          = true) := by
  have hstay : ∀ (t : List Unit), t.foldl (fun acc _ => request_repaint acc) 2 = 2 := by
    intro t
    induction t with
    | nil => rfl
    | cons x t ih => simpa [request_repaint] using ih
  refine ⟨fun c => ⟨rfl, le_refl 2⟩, ?_, ?_⟩
  · intro l c hl
    cases l with
    | nil => exact absurd rfl hl
    | cons x t => simpa [request_repaint] using hstay t
  · intro wr1 wr2 out1 out2 c
    cases wr1 <;> cases wr2 <;> simp [end_frame, request_repaint]

/-- Witness for `request_repaint_spec`: two calls in frame N still leave the
counter at 2, and the next frame's output reports a repaint. -/
theorem request_repaint_spec_witness :
    [(), ()].foldl (fun acc _ => request_repaint acc) 5 = 2
    ∧ (end_frame false ⟨false⟩ (end_frame false ⟨false⟩ (request_repaint 0)).2).1.needs_repaint
        = true :=
  ⟨request_repaint_spec.2.1 [(), ()] 5 (by decide),
   request_repaint_spec.2.2 false false ⟨false⟩ ⟨false⟩ 0⟩

/-- C6: `animate_bool` returns the manager's value unchanged; whenever that
value is strictly between 0 and 1 it requests a repaint (so the next
`end_frame` reports `needs_repaint`), and when the value is exactly 0 or
exactly 1 it leaves the repaint counter untouched. -/
theorem animate_bool_repaint_spec (v : ℚ) (c : ℕ) :
    (animate_bool v c).1 = v
    ∧ (0 < v ∧ v < 1 →
        (animate_bool v c).2 = request_repaint c
        ∧ (end_frame false ⟨false⟩ (animate_bool v c).2).1.needs_repaint = true)
    ∧ (v = 0 ∨ v = 1 → (animate_bool v c).2 = c) := by
  unfold animate_bool
  by_cases h : 0 < v ∧ v < 1
  · refine ⟨by simp [h], fun _ => ⟨by simp [h], ?_⟩, ?_⟩
    · simp [h, end_frame, request_repaint]
    · rintro (rfl | rfl)
      · exact absurd h.1 (lt_irrefl 0)
      · exact absurd h.2 (lt_irrefl 1)
  · exact ⟨by simp [h], fun hv => absurd hv h, fun _ => by simp [h]⟩

/-- Witness for `animate_bool_repaint_spec` at value 1/2 (mid-animation) and
at value 0 (animation finished). -/
theorem animate_bool_repaint_spec_witness :
    ((animate_bool (1/2) 0).2 = request_repaint 0
      ∧ (end_frame false ⟨false⟩ (animate_bool (1/2) 0).2).1.needs_repaint = true)
    ∧ (animate_bool 0 5).2 = 5 :=
  ⟨(animate_bool_repaint_spec (1/2) 0).2.1 (by norm_num),
   (animate_bool_repaint_spec 0 5).2.2 (Or.inl rfl)⟩

/-- C8 counterexample (debug-build semantics): a first `allocate_central_panel`
succeeds and leaves the available rectangle at the `Rect::nothing()`
sentinel, and the second call in the same frame then hits the
`debug_assert!` and panics (`Except.error`) instead of continuing with
best-effort results. -/
theorem allocate_central_panel_second_call_cex :
    allocate_central_panel (some ⟨⟨0, 0⟩, ⟨100, 100⟩⟩) (some Rect.nothing)
        ⟨⟨0, 0⟩, ⟨100, 100⟩⟩
      = Except.ok (some Rect.nothing, register_panel (some Rect.nothing) ⟨⟨0, 0⟩, ⟨100, 100⟩⟩)
    ∧ allocate_central_panel (some Rect.nothing)
        (register_panel (some Rect.nothing) ⟨⟨0, 0⟩, ⟨100, 100⟩⟩) ⟨⟨0, 0⟩, ⟨100, 100⟩⟩
      = Except.error "You already created a  `CentralPanel` this frame!" := by
  constructor
  · rw [allocate_central_panel, if_neg (by decide)]
  · rw [allocate_central_panel, if_pos rfl]

/-- C8 (amended): `allocate_central_panel` sets the available rectangle to
the empty "nothing" sentinel and registers the panel footprint; calling it a
second time within the same frame trips a `debug_assert!` carrying a
developer-facing message, which in debug builds halts that call (it does not
continue with best-effort results, and in release builds the check is
compiled out entirely). -/
theorem allocate_central_panel_spec (available_rect used_by_panels : Option Rect)
    (panel_rect : Rect) (h : available_rect ≠ some Rect.nothing) :
    allocate_central_panel available_rect used_by_panels panel_rect
      = Except.ok (some Rect.nothing, register_panel used_by_panels panel_rect)
    ∧ ∀ (u : Option Rect) (p : Rect),
        allocate_central_panel (some Rect.nothing) u p
          = Except.error "You already created a  `CentralPanel` this frame!" := by
  constructor
  · rw [allocate_central_panel, if_neg h]
  · intro u p
    rw [allocate_central_panel, if_pos rfl]

/-- Witness for `allocate_central_panel_spec` on a fresh screen rectangle. -/
theorem allocate_central_panel_spec_witness :
    allocate_central_panel (some ⟨⟨0, 0⟩, ⟨200, 100⟩⟩) (some Rect.nothing)
        ⟨⟨0, 0⟩, ⟨200, 100⟩⟩
      = Except.ok (some Rect.nothing, register_panel (some Rect.nothing) ⟨⟨0, 0⟩, ⟨200, 100⟩⟩)
    ∧ ∀ (u : Option Rect) (p : Rect),
        allocate_central_panel (some Rect.nothing) u p
          = Except.error "You already created a  `CentralPanel` this frame!" :=
  allocate_central_panel_spec (some ⟨⟨0, 0⟩, ⟨200, 100⟩⟩) (some Rect.nothing)
    ⟨⟨0, 0⟩, ⟨200, 100⟩⟩ (by decide)

/-- C9: registering a fresh identifier paints no diagnostic; registering the
same identifier a second time in the same frame (at a different position)
paints at least one collision diagnostic, every such diagnostic lying at one
of the two offending positions; and `begin_frame` clears the used-identifier
set, so detection is per-frame. -/
theorem register_unique_id_spec (u : List (Id × Pos2)) (id : Id) (pos p1 p2 : Pos2)
    (prev_ids : List (Id × Pos2)) (screen_rect : Rect)
    (hfresh : idLookup u id = none) (_hne : p1 ≠ p2) :
    (register_unique_id u id pos).2 = []
    ∧ (register_unique_id (register_unique_id u id p1).1 id p2).2 ≠ []
    ∧ (∀ e ∈ (register_unique_id (register_unique_id u id p1).1 id p2).2,
        e.1 = p1 ∨ e.1 = p2)
    ∧ (begin_frame_mut prev_ids screen_rect).1 = [] := by
  have h1 : (register_unique_id u id p1).1 = (id, p1) :: u := by
    rw [register_unique_id, hfresh]
  have h2 : idLookup ((id, p1) :: u) id = some p1 := by simp [idLookup]
  refine ⟨by rw [register_unique_id, hfresh], ?_, ?_, rfl⟩
  · rw [h1]
    simp only [register_unique_id, h2]
    split <;> simp
  · intro e he
    rw [h1] at he
    simp only [register_unique_id, h2] at he
    split at he <;> simp at he
    · exact Or.inr (by rw [he])
    · rcases he with he | he
      · exact Or.inl (by rw [he])
      · exact Or.inr (by rw [he])

/-- Witness for `register_unique_id_spec`: id 0 registered at the origin,
then again 50 units away. -/
theorem register_unique_id_spec_witness :
    (register_unique_id [] 0 ⟨0, 0⟩).2 = []
    ∧ (register_unique_id (register_unique_id [] 0 ⟨0, 0⟩).1 0 ⟨50, 0⟩).2 ≠ []
    ∧ (∀ e ∈ (register_unique_id (register_unique_id [] 0 ⟨0, 0⟩).1 0 ⟨50, 0⟩).2,
        e.1 = (⟨0, 0⟩ : Pos2) ∨ e.1 = (⟨50, 0⟩ : Pos2))
    ∧ (begin_frame_mut [(1, ⟨2, 3⟩)] ⟨⟨0, 0⟩, ⟨100, 100⟩⟩).1 = [] :=
  register_unique_id_spec [] 0 ⟨0, 0⟩ ⟨0, 0⟩ ⟨50, 0⟩ [(1, ⟨2, 3⟩)] ⟨⟨0, 0⟩, ⟨100, 100⟩⟩
    rfl (by decide)

/-- If `smin ≤ wmin` and `wmax ≤ smax` (the window interval fits inside the
screen interval), the axis clamp leaves the window coordinate unchanged. -/
theorem clamp_axis_inside (smin smax wmin wmax : ℚ) (h1 : smin ≤ wmin) (h2 : wmax ≤ smax) :
    clamp_axis smin smax wmin wmax = wmin := by
  have hm : Max.max (wmax - wmin - (smax - smin)) 0 = 0 := max_eq_right (by linarith)
  simp only [clamp_axis, at_least, at_most, hm, sub_zero, add_zero]
  rw [max_eq_left h1, min_eq_left (by linarith)]

/-- If the window interval is strictly wider than the screen interval, the
axis clamp overflows each end of the screen interval by at most the size
excess. -/
theorem clamp_axis_overflow (smin smax wmin wmax : ℚ) (h : smax - smin < wmax - wmin) :
    smin - clamp_axis smin smax wmin wmax ≤ (wmax - wmin) - (smax - smin)
    ∧ clamp_axis smin smax wmin wmax + (wmax - wmin) - smax ≤ (wmax - wmin) - (smax - smin) := by
  have hm : Max.max (wmax - wmin - (smax - smin)) 0 = wmax - wmin - (smax - smin) :=
    max_eq_left (by linarith)
  simp only [clamp_axis, at_least, at_most, hm]
  constructor
  · have hA : smin - (wmax - wmin - (smax - smin))
        ≤ Max.max wmin (smin - (wmax - wmin - (smax - smin))) := le_max_right _ _
    have hB : smin - (wmax - wmin - (smax - smin))
        ≤ smax + (wmax - wmin - (smax - smin)) - (wmax - wmin) := by linarith
    have := le_min hA hB
    linarith
  · have := min_le_right (Max.max wmin (smin - (wmax - wmin - (smax - smin))))
      (smax + (wmax - wmin - (smax - smin)) - (wmax - wmin))
    linarith

/-- C7: a window rectangle fully inside the available rectangle is returned
unchanged except for pixel-grid snapping of its position; a window larger
than the available rectangle on an axis keeps its size, and its pre-snapping
position overflows each side of that axis by at most the size excess rather
than being shrunk or forced inside; and the result always keeps the window's
size. -/
theorem constrain_window_rect_spec (pixels_per_point : ℚ) (screen window : Rect) :
    ((screen.min.x ≤ window.min.x ∧ window.max.x ≤ screen.max.x ∧
      screen.min.y ≤ window.min.y ∧ window.max.y ≤ screen.max.y) →
      constrain_window_rect pixels_per_point screen window
        = Rect.from_min_size (round_pos_to_pixels pixels_per_point window.min) window.size)
    ∧ (screen.width < window.width →
        screen.left - (constrain_window_pos screen window).x ≤ window.width - screen.width
        ∧ (constrain_window_pos screen window).x + window.width - screen.right
            ≤ window.width - screen.width)
    ∧ (screen.height < window.height →
        screen.top - (constrain_window_pos screen window).y ≤ window.height - screen.height
        ∧ (constrain_window_pos screen window).y + window.height - screen.bottom
            ≤ window.height - screen.height)
    ∧ (constrain_window_rect pixels_per_point screen window).size = window.size := by
  refine ⟨?_, ?_, ?_, ?_⟩
  · rintro ⟨h1, h2, h3, h4⟩
    have hpos : constrain_window_pos screen window = window.min := by
      unfold constrain_window_pos
      rw [clamp_axis_inside screen.left screen.right window.min.x window.max.x h1 h2,
        clamp_axis_inside screen.top screen.bottom window.min.y window.max.y h3 h4]
    rw [constrain_window_rect, hpos]
  · intro hx
    have := clamp_axis_overflow screen.left screen.right window.min.x window.max.x
      (by simpa [Rect.width, Rect.left, Rect.right] using hx)
    simpa [constrain_window_pos, Rect.width, Rect.left, Rect.right] using this
  · intro hy
    have := clamp_axis_overflow screen.top screen.bottom window.min.y window.max.y
      (by simpa [Rect.height, Rect.top, Rect.bottom] using hy)
    simpa [constrain_window_pos, Rect.height, Rect.top, Rect.bottom] using this
  · simp [constrain_window_rect, Rect.from_min_size, Rect.size, Pos2.addVec, Pos2.sub,
      add_sub_cancel_left]

/-- Witness for `constrain_window_rect_spec`: a window inside a 100×100
screen, and a window 30 wide over a screen 10 wide. -/
theorem constrain_window_rect_spec_witness :
    constrain_window_rect 1 ⟨⟨0, 0⟩, ⟨100, 100⟩⟩ ⟨⟨10, 10⟩, ⟨20, 20⟩⟩
      = Rect.from_min_size (round_pos_to_pixels 1 (⟨10, 10⟩ : Pos2))
          (Rect.size ⟨⟨10, 10⟩, ⟨20, 20⟩⟩)
    ∧ (Rect.left ⟨⟨0, 0⟩, ⟨10, 10⟩⟩
          - (constrain_window_pos ⟨⟨0, 0⟩, ⟨10, 10⟩⟩ ⟨⟨0, 0⟩, ⟨30, 5⟩⟩).x
        ≤ Rect.width ⟨⟨0, 0⟩, ⟨30, 5⟩⟩ - Rect.width ⟨⟨0, 0⟩, ⟨10, 10⟩⟩
      ∧ (constrain_window_pos ⟨⟨0, 0⟩, ⟨10, 10⟩⟩ ⟨⟨0, 0⟩, ⟨30, 5⟩⟩).x
          + Rect.width ⟨⟨0, 0⟩, ⟨30, 5⟩⟩ - Rect.right ⟨⟨0, 0⟩, ⟨10, 10⟩⟩
        ≤ Rect.width ⟨⟨0, 0⟩, ⟨30, 5⟩⟩ - Rect.width ⟨⟨0, 0⟩, ⟨10, 10⟩⟩) :=
  ⟨(constrain_window_rect_spec 1 ⟨⟨0, 0⟩, ⟨100, 100⟩⟩ ⟨⟨10, 10⟩, ⟨20, 20⟩⟩).1
      (by refine ⟨?_, ?_, ?_, ?_⟩ <;> norm_num),
   (constrain_window_rect_spec 1 ⟨⟨0, 0⟩, ⟨10, 10⟩⟩ ⟨⟨0, 0⟩, ⟨30, 5⟩⟩).2.1
      (by norm_num [Rect.width])⟩

/-- C1: on a frame reporting the pointer-release transition (and no press
transition), `interact` with an identifier and a non-empty sense returns
`clicked = hovered && active && could_be_click` and `double_clicked =
clicked && double_click`, and leaves the click- and drag-ownership slots of
the interaction memory unchanged. -/
theorem interact_release_spec (c : Ctx) (layer_id : LayerId) (clip_rect rect : Rect)
    (id : Id) (sense : Sense) (m : Memory)
    (hp : c.mouse.pressed = false) (hr : c.mouse.released = true)
    (hs : sense ≠ Sense.nothing) :
    ((c.interact layer_id clip_rect rect (some id) sense m).1).clicked
      = (c.interact_hovered layer_id clip_rect rect
          && m.interaction.is_active id && c.mouse.could_be_click)
    ∧ ((c.interact layer_id clip_rect rect (some id) sense m).1).double_clicked
      = (((c.interact layer_id clip_rect rect (some id) sense m).1).clicked
          && c.mouse.double_click)
    ∧ ((c.interact layer_id clip_rect rect (some id) sense m).2).interaction.click_id
      = m.interaction.click_id
    ∧ ((c.interact layer_id clip_rect rect (some id) sense m).2).interaction.drag_id
      = m.interaction.drag_id := by
  simp [Ctx.interact, hp, hr, hs, Interaction.is_active, Bool.and_assoc]

/-- Witness for `interact_release_spec`: release over the hovered rectangle
while identifier 7 owns the click slot. -/
theorem interact_release_spec_witness :
    (((sampleCtx sampleMouseRelease).interact 0 sampleClip sampleRect (some 7)
        Sense.clickOnly sampleMemActive7).1).clicked
      = ((sampleCtx sampleMouseRelease).interact_hovered 0 sampleClip sampleRect
          && sampleMemActive7.interaction.is_active 7
          && (sampleCtx sampleMouseRelease).mouse.could_be_click)
    ∧ (((sampleCtx sampleMouseRelease).interact 0 sampleClip sampleRect (some 7)
        Sense.clickOnly sampleMemActive7).1).double_clicked
      = ((((sampleCtx sampleMouseRelease).interact 0 sampleClip sampleRect (some 7)
          Sense.clickOnly sampleMemActive7).1).clicked
          && (sampleCtx sampleMouseRelease).mouse.double_click)
    ∧ (((sampleCtx sampleMouseRelease).interact 0 sampleClip sampleRect (some 7)
        Sense.clickOnly sampleMemActive7).2).interaction.click_id
      = sampleMemActive7.interaction.click_id
    ∧ (((sampleCtx sampleMouseRelease).interact 0 sampleClip sampleRect (some 7)
        Sense.clickOnly sampleMemActive7).2).interaction.drag_id
      = sampleMemActive7.interaction.drag_id :=
  interact_release_spec (sampleCtx sampleMouseRelease) 0 sampleClip sampleRect 7
    Sense.clickOnly sampleMemActive7 rfl rfl (by decide)

/-- C2: the interaction memory has at most one click owner and at most one
drag owner at any instant; on a press while hovered a click-sensing call
claims the click slot exactly when it is free, and a drag-sensing call
claims the drag slot when it is free or held by the window-move placeholder,
clearing the placeholder flag and the pending window interaction; a slot
already owned by some identifier (for drag: with the placeholder flag down)
is never reassigned by a later `interact` call. -/
theorem interact_ownership_spec (c : Ctx) (layer_id : LayerId) (clip_rect rect : Rect)
    (id a : Id) (sense : Sense) (m : Memory) :
    (∀ (m' : Memory) (i j : Id), m'.interaction.click_id = some i →
        m'.interaction.click_id = some j → i = j)
    ∧ (∀ (m' : Memory) (i j : Id), m'.interaction.drag_id = some i →
        m'.interaction.drag_id = some j → i = j)
    ∧ (c.mouse.pressed = true → c.interact_hovered layer_id clip_rect rect = true →
        sense.click = true → m.interaction.click_id = none →
        ((c.interact layer_id clip_rect rect (some id) sense m).2).interaction.click_id
          = some id)
    ∧ (m.interaction.click_id = some a →
        ((c.interact layer_id clip_rect rect (some id) sense m).2).interaction.click_id
          = some a)
    ∧ (c.mouse.pressed = true → c.interact_hovered layer_id clip_rect rect = true →
        sense.drag = true →
        (m.interaction.drag_id = none ∨ m.interaction.drag_is_window = true) →
        ((c.interact layer_id clip_rect rect (some id) sense m).2).interaction.drag_id
            = some id
        ∧ ((c.interact layer_id clip_rect rect (some id) sense m).2).interaction.drag_is_window
            = false
        ∧ ((c.interact layer_id clip_rect rect (some id) sense m).2).window_interaction
            = none)
    ∧ (m.interaction.drag_id = some a → m.interaction.drag_is_window = false →
        ((c.interact layer_id clip_rect rect (some id) sense m).2).interaction.drag_id
            = some a
        ∧ ((c.interact layer_id clip_rect rect (some id) sense m).2).interaction.drag_is_window
            = false) := by
  refine ⟨?_, ?_, ?_, ?_, ?_, ?_⟩
  · intro m' i j hi hj
    rw [hi] at hj
    exact Option.some.inj hj
  · intro m' i j hi hj
    rw [hi] at hj
    exact Option.some.inj hj
  · intro hp hh hc hnone
    have hs : sense ≠ Sense.nothing := by
      intro heq
      rw [heq] at hc
      simp [Sense.nothing] at hc
    simp only [Ctx.interact, hp, hh, hs, hc, hnone]
    simp [hnone, hc]
    split <;> simp
  · intro ha
    by_cases hs : sense = Sense.nothing
    · simp [Ctx.interact, hs, ha]
    · simp only [Ctx.interact, hs]
      cases hpb : c.mouse.pressed <;>
        cases hhb : c.interact_hovered layer_id clip_rect rect <;>
          simp [hpb, hhb, ha] <;> (repeat' split) <;> simp [ha]
  · intro hp hh hd hcond
    have hs : sense ≠ Sense.nothing := by
      intro heq
      rw [heq] at hd
      simp [Sense.nothing] at hd
    rcases hcond with h | h <;>
      · simp only [Ctx.interact, hp, hh, hs, hd, h]
        simp [h, hd]
        split <;> simp [h]
  · intro ha hw
    by_cases hs : sense = Sense.nothing
    · simp [Ctx.interact, hs, ha, hw]
    · simp only [Ctx.interact, hs]
      cases hpb : c.mouse.pressed <;>
        cases hhb : c.interact_hovered layer_id clip_rect rect <;>
          simp [hpb, hhb, ha, hw] <;> (repeat' split) <;> simp_all

/-- The sample press context hovers the sample rectangle (evaluation lemma
for the witnesses; the rational arithmetic in `interact_hovered` involves
`Nat.gcd` normalization, which kernel reduction cannot unfold, so this is
proved by `simp`/`norm_num` instead of `decide`). -/
theorem sampleMousePress_hover :
    (sampleCtx sampleMousePress).interact_hovered 0 sampleClip sampleRect = true := by
  simp [Ctx.interact_hovered, Ctx.contains_mouse, sampleCtx, sampleMousePress, sampleClip,
    sampleRect, Rect.expand2, Rect.intersect, Rect.contains, Vec2.smul, Pos2.subVec,
    Pos2.addVec]
  norm_num

/-- Witness for `interact_ownership_spec`: pressing a click+drag widget with
identifier 7 over free slots claims both and clears the pending window
interaction; the same press against slots owned by identifier 3 leaves them
with identifier 3. -/
theorem interact_ownership_spec_witness :
    (((sampleCtx sampleMousePress).interact 0 sampleClip sampleRect (some 7)
        ⟨true, true⟩ sampleMemFree).2).interaction.click_id = some 7
    ∧ ((((sampleCtx sampleMousePress).interact 0 sampleClip sampleRect (some 7)
        ⟨true, true⟩ sampleMemFree).2).interaction.drag_id = some 7
      ∧ (((sampleCtx sampleMousePress).interact 0 sampleClip sampleRect (some 7)
        ⟨true, true⟩ sampleMemFree).2).interaction.drag_is_window = false
      ∧ (((sampleCtx sampleMousePress).interact 0 sampleClip sampleRect (some 7)
        ⟨true, true⟩ sampleMemFree).2).window_interaction = none)
    ∧ (((sampleCtx sampleMousePress).interact 0 sampleClip sampleRect (some 7)
        ⟨true, true⟩ sampleMemOwned).2).interaction.click_id = some 3
    ∧ ((((sampleCtx sampleMousePress).interact 0 sampleClip sampleRect (some 7)
        ⟨true, true⟩ sampleMemOwned).2).interaction.drag_id = some 3
      ∧ (((sampleCtx sampleMousePress).interact 0 sampleClip sampleRect (some 7)
        ⟨true, true⟩ sampleMemOwned).2).interaction.drag_is_window = false) :=
  ⟨(interact_ownership_spec (sampleCtx sampleMousePress) 0 sampleClip sampleRect 7 0
      ⟨true, true⟩ sampleMemFree).2.2.1 rfl sampleMousePress_hover rfl rfl,
   (interact_ownership_spec (sampleCtx sampleMousePress) 0 sampleClip sampleRect 7 0
      ⟨true, true⟩ sampleMemFree).2.2.2.2.1 rfl sampleMousePress_hover rfl (Or.inl rfl),
   (interact_ownership_spec (sampleCtx sampleMousePress) 0 sampleClip sampleRect 7 3
      ⟨true, true⟩ sampleMemOwned).2.2.2.1 rfl,
   (interact_ownership_spec (sampleCtx sampleMousePress) 0 sampleClip sampleRect 7 3
      ⟨true, true⟩ sampleMemOwned).2.2.2.2.2 rfl rfl⟩

/-- C5: while the primary button is held down with no press or release
transition, `interact` with an identifier and a non-empty sense reports
`hovered = geometric hover && active`, so during a drag only the owning
identifier keeps reporting hovered. -/
theorem interact_down_spec (c : Ctx) (layer_id : LayerId) (clip_rect rect : Rect)
    (id : Id) (sense : Sense) (m : Memory)
    (hp : c.mouse.pressed = false) (hr : c.mouse.released = false)
    (hd : c.mouse.down = true) (hs : sense ≠ Sense.nothing) :
    ((c.interact layer_id clip_rect rect (some id) sense m).1).hovered
      = (c.interact_hovered layer_id clip_rect rect && m.interaction.is_active id) := by
  simp [Ctx.interact, hp, hr, hd, hs, Interaction.is_active]

/-- Witness for `interact_down_spec`: a held-down frame over the rectangle
with identifier 7 not owning any slot (the hover report is downgraded to
false). -/
theorem interact_down_spec_witness :
    (((sampleCtx sampleMouseDown).interact 0 sampleClip sampleRect (some 7)
        Sense.clickOnly sampleMemOwned).1).hovered
      = ((sampleCtx sampleMouseDown).interact_hovered 0 sampleClip sampleRect
          && sampleMemOwned.interaction.is_active 7) :=
  interact_down_spec (sampleCtx sampleMouseDown) 0 sampleClip sampleRect 7
    Sense.clickOnly sampleMemOwned rfl rfl rfl (by decide)

/-- C10: `toggle` and `toggle_compact` are behaviourally equivalent — for
every `Ui` interface implementation, every `Ui` state and every initial
value of the `on` flag, they return equal responses, equal final flag values
(the flag is flipped exactly when the response reports `clicked`), and equal
final states (hence the same emitted paint commands). -/
theorem toggle_eq_toggle_compact :
    ∀ (σ : Type) (ops : UiOps σ) (s : σ) (on_flag : Bool),
      toggle ops s on_flag = toggle_compact ops s on_flag
      ∧ (toggle ops s on_flag).2.1
          = on_flag.xor ((toggle ops s on_flag).1).clicked := by
  intro σ ops s on_flag
  have h : toggle ops s on_flag = toggle_compact ops s on_flag := by
    unfold toggle toggle_compact
    have hbool : ∀ (b c : Bool), (if c = true then !b else b) = b.xor c := by decide
    simp only [hbool]
  refine ⟨h, ?_⟩
  rw [h]
  rfl

end Egui
